import Mathlib

/-!
Verification of the GMaps-Monitor route monitoring core: a shallow embedding
of the in-memory store (server/storage.ts, `MemStorage`), the check cycle
(`checkRouteTime` in server/routes.ts), the scheduler
(`scheduleRouteMonitoring`), the settings initialization
(the `/api/init` handler) and the route creation handler, together with
theorems settling the frozen claims about aggregation, notification policy,
failure behaviour, write ordering, validation and deletion.

Modelling conventions:
- JS `number` values that matter are integers (`Int`); travel times come from
  `Math.round(seconds / 60)`.
- Timestamps (`Date`) are modelled as `Nat` ticks supplied by the caller.
- A nullable JS field is a `JsInt`: `undef` (property absent / `undefined`),
  `null`, or `num n`.  The distinction is load-bearing: the source tests
  `previousTime !== null`, which `undefined` passes.
- `Option String` models a string that is absent or empty (falsy) via `none`;
  `some s` is a truthy string, so `a || b` on such values is `Option.or`.
- Each `async` storage method of `MemStorage` is a pure state-passing function;
  the `Promise` layer adds nothing because every method resolves immediately.
- JS `Map` iteration order is insertion order and ids issued by the storage
  counters are fresh, so map insertion is list append and map update is
  in-place replacement.
-/

namespace GMapsMonitor

/-- JS value of a nullable integer column: the property can be absent
(`undefined`), `null`, or an actual number. -/
inductive JsInt where
  | undef : JsInt
  | null : JsInt
  | num : Int → JsInt
deriving DecidableEq, Repr

/-- Truthiness of a `JsInt` as used by `route.minTime ? _ : _` in
checkRouteTime: `undefined`, `null` and `0` are falsy, every other number is
truthy. -/
def JsInt.truthy : JsInt → Bool
  | .num n => n != 0
  | _ => false

/-- Value of `timeChange` in checkRouteTime (routes.ts line 362):
`previousTime !== null ? durationMinutes - previousTime : null`.  When
`previousTime` is `undefined` the strict test against `null` passes and the
subtraction evaluates to `NaN`. -/
inductive TimeChange where
  | null : TimeChange
  | nan : TimeChange
  | num : Int → TimeChange
deriving DecidableEq, Repr

/-- Translation of routes.ts line 362. -/
def computeTimeChange (previousTime : JsInt) (durationMinutes : Int) : TimeChange :=
  match previousTime with
  | .null => .null
  | .undef => .nan
  | .num p => .num (durationMinutes - p)

/-- Row of the `routes` table (shared/schema.ts lines 18-34).  The two `jsonb`
presentation columns (sourceDetails, destinationDetails) are pass-through data
never read by the monitoring core and are omitted. -/
structure Route where
  id : Nat
  name : String
  source : String
  destination : String
  interval : Int
  isActive : Bool
  isSaved : Bool
  lastChecked : Option Nat
  currentTime : JsInt
  minTime : JsInt
  maxTime : JsInt
  avgTime : JsInt
  change : TimeChange
deriving DecidableEq, Repr

/-- Row of the `route_histories` table (shared/schema.ts lines 42-48). -/
structure RouteHistoryRec where
  id : Nat
  routeId : Nat
  timestamp : Nat
  travelTime : Int
  change : TimeChange
deriving DecidableEq, Repr

/-- Row of the `notifications` table (shared/schema.ts lines 55-62). -/
structure NotificationRec where
  id : Nat
  routeId : Nat
  timestamp : Nat
  type : String
  message : String
  isRead : Bool
deriving DecidableEq, Repr

/-- Row of the `settings` table (shared/schema.ts lines 69-75).  `apiKey` is
`none` when the stored key is absent or empty (both falsy in the source). -/
structure SettingsRec where
  id : Nat
  apiKey : Option String
  enableNotifications : Bool
  notificationType : String
  historyRetention : Int
deriving DecidableEq, Repr

/-- Payload accepted by `insertRouteSchema` (shared/schema.ts lines 36-39):
every `routes` column except `id` and `lastChecked`.  Nullable columns are
optional in the generated zod schema, so a request that does not mention them
leaves the property absent (`JsInt.undef`); the standard creation form
(route-form.tsx) sends only name, source, destination, interval, isActive and
isSaved. -/
structure InsertRoute where
  name : String
  source : String
  destination : String
  interval : Int
  isActive : Bool
  isSaved : Bool
  currentTime : JsInt := .undef
  minTime : JsInt := .undef
  maxTime : JsInt := .undef
  avgTime : JsInt := .undef
  change : TimeChange := .null
deriving DecidableEq, Repr

/-- Payload of `storage.createRouteHistory` as built at routes.ts lines
365-370; the caller always supplies a timestamp. -/
structure InsertRouteHistory where
  routeId : Nat
  timestamp : Nat
  travelTime : Int
  change : TimeChange
deriving DecidableEq, Repr

/-- Payload of `storage.createNotification` as built at routes.ts lines
429-435 and 440-446. -/
structure InsertNotification where
  routeId : Nat
  timestamp : Nat
  type : String
  message : String
  isRead : Bool
deriving DecidableEq, Repr

/-- Result of a successful `getTravelTime` call (server/google-api.ts):
`durationMinutes` is `Math.round(durationData.value / 60)`. -/
structure TravelTimeResult where
  durationMinutes : Int
  durationText : String
  distanceText : String
deriving DecidableEq, Repr

/-- State of `MemStorage` (server/storage.ts lines 41-72).  The `users` table
is untouched by the monitoring core and omitted.  `settings` is not optional:
the constructor always creates the default settings object and
`updateSettings` never removes it. -/
structure MemStorage where
  routes : List Route
  routeHistories : List RouteHistoryRec
  notifications : List NotificationRec
  settings : SettingsRec
  routeId : Nat
  routeHistoryId : Nat
  notificationId : Nat
deriving DecidableEq, Repr

/-- Initial `MemStorage` built by the constructor (storage.ts lines 53-72);
`envApiKey` is `process.env.GOOGLE_MAPS_API_KEY`. -/
def MemStorage.init (envApiKey : Option String) : MemStorage :=
  { routes := []
    routeHistories := []
    notifications := []
    settings :=
      { id := 1
        apiKey := envApiKey
        enableNotifications := true
        notificationType := "all"
        historyRetention := 30 }
    routeId := 1
    routeHistoryId := 1
    notificationId := 1 }

/-- Insertion of a history record in timestamp order; used to model the
comparator sort in `getRouteHistories`. -/
def insertByTimestamp (h : RouteHistoryRec) : List RouteHistoryRec → List RouteHistoryRec
  | [] => [h]
  | x :: xs =>
    if h.timestamp ≤ x.timestamp then h :: x :: xs else x :: insertByTimestamp h xs

/-- Model of `.sort((a, b) => a.timestamp.getTime() - b.timestamp.getTime())`
(storage.ts line 142): ascending timestamp order.  The order among equal
timestamps is immaterial to every claim (only sums, lengths and emptiness are
used), so a simple insertion sort suffices. -/
def sortByTimestamp : List RouteHistoryRec → List RouteHistoryRec
  | [] => []
  | x :: xs => insertByTimestamp x (sortByTimestamp xs)

/-- Insertion of a notification in descending timestamp order; used to model
the comparator sort in `getNotifications`. -/
def insertByTimestampDesc (n : NotificationRec) :
    List NotificationRec → List NotificationRec
  | [] => [n]
  | x :: xs =>
    if x.timestamp ≤ n.timestamp then n :: x :: xs else x :: insertByTimestampDesc n xs

/-- Model of `.sort((a, b) => b.timestamp.getTime() - a.timestamp.getTime())`
(storage.ts line 169): descending timestamp order. -/
def sortByTimestampDesc : List NotificationRec → List NotificationRec
  | [] => []
  | x :: xs => insertByTimestampDesc x (sortByTimestampDesc xs)

namespace MemStorage

/-- `getRoute` (storage.ts lines 105-107): `this.routes.get(id)`. -/
def getRoute (s : MemStorage) (id : Nat) : Option Route :=
  s.routes.find? (fun r => r.id == id)

/-- `getRoutes` (storage.ts lines 93-95). -/
def getRoutes (s : MemStorage) : List Route := s.routes

/-- `getActiveRoutes` (storage.ts lines 97-99). -/
def getActiveRoutes (s : MemStorage) : List Route :=
  s.routes.filter (fun r => r.isActive)

/-- `createRoute` (storage.ts lines 109-120): spreads the insert payload, then
sets `id`, `lastChecked = now` and `change = null`. -/
def createRoute (s : MemStorage) (insertRoute : InsertRoute) (now : Nat) :
    Route × MemStorage :=
  let id := s.routeId
  let route : Route :=
    { id := id
      name := insertRoute.name
      source := insertRoute.source
      destination := insertRoute.destination
      interval := insertRoute.interval
      isActive := insertRoute.isActive
      isSaved := insertRoute.isSaved
      lastChecked := some now
      currentTime := insertRoute.currentTime
      minTime := insertRoute.minTime
      maxTime := insertRoute.maxTime
      avgTime := insertRoute.avgTime
      change := .null }
  (route, { s with routes := s.routes ++ [route], routeId := id + 1 })

/-- `updateRoute` (storage.ts lines 122-129).  The partial update object of
the source is modelled as the field transformer `upd` applied to the stored
route; `Map.set` on an existing key is in-place replacement. -/
def updateRoute (s : MemStorage) (id : Nat) (upd : Route → Route) :
    Option Route × MemStorage :=
  match s.routes.find? (fun r => r.id == id) with
  | none => (none, s)
  | some route =>
    let updatedRoute := upd route
    (some updatedRoute,
      { s with routes := s.routes.map (fun r => if r.id == id then updatedRoute else r) })

/-- `deleteRouteHistories` (storage.ts lines 156-164): removes every history
entry owned by the route; each `Map.delete` of an entry being iterated
returns true, so the success flag is true. -/
def deleteRouteHistories (s : MemStorage) (routeId : Nat) : Bool × MemStorage :=
  (true, { s with routeHistories := s.routeHistories.filter (fun h => h.routeId != routeId) })

/-- `deleteRoute` (storage.ts lines 131-136): cascades to the histories first,
then deletes the route record; `Map.delete` reports whether the key existed. -/
def deleteRoute (s : MemStorage) (id : Nat) : Bool × MemStorage :=
  let s1 := (deleteRouteHistories s id).2
  (s1.routes.any (fun r => r.id == id),
    { s1 with routes := s1.routes.filter (fun r => r.id != id) })

/-- `getRouteHistories` (storage.ts lines 139-143): entries of the route in
ascending timestamp order. -/
def getRouteHistories (s : MemStorage) (routeId : Nat) : List RouteHistoryRec :=
  sortByTimestamp (s.routeHistories.filter (fun h => h.routeId == routeId))

/-- `createRouteHistory` (storage.ts lines 145-154). -/
def createRouteHistory (s : MemStorage) (insertHistory : InsertRouteHistory) :
    RouteHistoryRec × MemStorage :=
  let id := s.routeHistoryId
  let history : RouteHistoryRec :=
    { id := id
      routeId := insertHistory.routeId
      timestamp := insertHistory.timestamp
      travelTime := insertHistory.travelTime
      change := insertHistory.change }
  (history, { s with routeHistories := s.routeHistories ++ [history], routeHistoryId := id + 1 })

/-- `getNotifications` (storage.ts lines 167-170): all notifications in
descending timestamp order. -/
def getNotifications (s : MemStorage) : List NotificationRec :=
  sortByTimestampDesc s.notifications

/-- `createNotification` (storage.ts lines 172-181). -/
def createNotification (s : MemStorage) (insertNotification : InsertNotification) :
    NotificationRec × MemStorage :=
  let id := s.notificationId
  let notification : NotificationRec :=
    { id := id
      routeId := insertNotification.routeId
      timestamp := insertNotification.timestamp
      type := insertNotification.type
      message := insertNotification.message
      isRead := insertNotification.isRead }
  (notification,
    { s with notifications := s.notifications ++ [notification], notificationId := id + 1 })

/-- `deleteNotifications` (storage.ts lines 192-195). -/
def deleteNotifications (s : MemStorage) : Bool × MemStorage :=
  (true, { s with notifications := [] })

/-- `getSettings` (storage.ts lines 198-200); always present, see `MemStorage`. -/
def getSettings (s : MemStorage) : SettingsRec := s.settings

/-- `updateSettings` (storage.ts lines 202-216) on the always-present settings
object: a plain merge, modelled as a field transformer. -/
def updateSettings (s : MemStorage) (upd : SettingsRec → SettingsRec) :
    SettingsRec × MemStorage :=
  let settings := upd s.settings
  (settings, { s with settings := settings })

/-- Freshness of the storage counters: every stored id is below its counter
and route ids are distinct.  Holds for every state the program reaches and
makes the list model of the JS `Map`s exact (insertions never collide with an
existing key). -/
def WF (s : MemStorage) : Prop :=
  (∀ r ∈ s.routes, r.id < s.routeId) ∧
  (∀ h ∈ s.routeHistories, h.id < s.routeHistoryId) ∧
  (∀ n ∈ s.notifications, n.id < s.notificationId) ∧
  (s.routes.map (fun r => r.id)).Nodup

instance (s : MemStorage) : Decidable (WF s) := by
  unfold WF; infer_instance

end MemStorage

/-- Resolution of the active API key (routes.ts line 345, also line 22):
`process.env.GOOGLE_MAPS_API_KEY || settings?.apiKey`.  A present (truthy)
environment key always wins over the stored key. -/
def resolveApiKey (envApiKey : Option String) (s : MemStorage) : Option String :=
  envApiKey.or s.settings.apiKey

/-- Translation of routes.ts line 373:
`route.minTime ? Math.min(route.minTime, durationMinutes) : durationMinutes`.
Note the truthiness test: a stored minTime of 0 selects the else branch. -/
def jsMinFold (prior : JsInt) (durationMinutes : Int) : Int :=
  if prior.truthy then
    match prior with
    | .num m => min m durationMinutes
    | _ => durationMinutes
  else durationMinutes

/-- Translation of routes.ts line 374, the `Math.max` analogue of `jsMinFold`. -/
def jsMaxFold (prior : JsInt) (durationMinutes : Int) : Int :=
  if prior.truthy then
    match prior with
    | .num m => max m durationMinutes
    | _ => durationMinutes
  else durationMinutes

/-- Translation of `Math.round(sum / len)` (routes.ts line 379) over integer
inputs.  ECMAScript Math.round is round-half-toward-positive-infinity, that is
`Math.round(x) = floor(x + 1/2)`, and for `len > 0` the floor of
`sum / len + 1/2` is the floor division `(2 * sum + len) / (2 * len)`, which is
integer `/` on `Int` (Euclidean division, equal to floor division for a
positive divisor).  The call site always has `len > 0` because the history
entry of the current cycle was just inserted. -/
def mathRound (sum : Int) (len : Nat) : Int :=
  (2 * sum + len) / (2 * (len : Int))

/-- Notification type chosen by the if-chain at routes.ts lines 400-409 for a
non-null `timeChange`.  `NaN` fails both comparisons and lands in the
`"unchanged"` branch; the `null` case never reaches this chain. -/
def notificationTypeFor (timeChange : TimeChange) : String :=
  match timeChange with
  | .num c => if 0 < c then "increase" else if c < 0 then "decrease" else "unchanged"
  | _ => "unchanged"

/-- Notification message built at routes.ts lines 400-409 for a non-null
`timeChange`. -/
def notificationMessageFor (routeName : String) (durationMinutes : Int)
    (timeChange : TimeChange) : String :=
  match timeChange with
  | .num c =>
    if 0 < c then
      routeName ++ ": Travel time increased to " ++ toString durationMinutes ++
        " min (+" ++ toString c ++ " min)"
    else if c < 0 then
      routeName ++ ": Travel time decreased to " ++ toString durationMinutes ++
        " min (" ++ toString c ++ " min)"
    else
      routeName ++ ": Travel time unchanged at " ++ toString durationMinutes ++ " min"
  | _ => routeName ++ ": Travel time unchanged at " ++ toString durationMinutes ++ " min"

/-- Emission gate of routes.ts lines 412-426: `shouldNotify` is false unless
`settings.enableNotifications` holds, and then the switch on
`settings.notificationType` decides; `Math.abs(NaN) >= 5` and `NaN > 0` are
both false, and a type outside the three known cases falls through with
`shouldNotify` still false. -/
def shouldNotify (settings : SettingsRec) (timeChange : TimeChange) : Bool :=
  settings.enableNotifications &&
    (if settings.notificationType = "all" then true
     else if settings.notificationType = "significant" then
       match timeChange with
       | .num c => decide (5 ≤ c.natAbs)
       | _ => false
     else if settings.notificationType = "increase" then
       match timeChange with
       | .num c => decide (0 < c)
       | _ => false
     else false)

/-- Return value of a successful `checkRouteTime` (routes.ts lines 449-453). -/
structure CheckResult where
  route : Option Route
  history : RouteHistoryRec
  notification : Option NotificationRec
deriving DecidableEq, Repr

/-- The check cycle `checkRouteTime` (routes.ts lines 337-458).
`envApiKey` is `process.env.GOOGLE_MAPS_API_KEY`, `providerResult` the value
returned by `getTravelTime` for this call (`none` on any provider failure),
and `now` the current clock tick used for every `new Date()` in the cycle.
The three early failure exits (missing route, unresolvable key, provider
failure) return `null` before any write. -/
def checkRouteTime (envApiKey : Option String) (providerResult : Option TravelTimeResult)
    (now : Nat) (routeId : Nat) (s : MemStorage) : Option CheckResult × MemStorage :=
  match s.getRoute routeId with
  | none => (none, s)
  | some route =>
    match resolveApiKey envApiKey s with
    | none => (none, s)
    | some _ =>
      match providerResult with
      | none => (none, s)
      | some travelTimeResult =>
        let durationMinutes := travelTimeResult.durationMinutes
        let previousTime := route.currentTime
        let timeChange := computeTimeChange previousTime durationMinutes
        let (history, s1) := s.createRouteHistory
          { routeId := routeId, timestamp := now,
            travelTime := durationMinutes, change := timeChange }
        let minTime := jsMinFold route.minTime durationMinutes
        let maxTime := jsMaxFold route.maxTime durationMinutes
        let allHistories := s1.getRouteHistories routeId
        let sum := (allHistories.map (fun h => h.travelTime)).foldl (· + ·) 0
        let avgTime := mathRound sum allHistories.length
        let (updatedRoute, s2) := s1.updateRoute routeId (fun r =>
          { r with
            currentTime := .num durationMinutes
            minTime := .num minTime
            maxTime := .num maxTime
            avgTime := .num avgTime
            change := timeChange
            lastChecked := some now })
        match timeChange with
        | .null =>
          let (notification, s3) := s2.createNotification
            { routeId := routeId, timestamp := now, type := "new",
              message := route.name ++ ": Started monitoring route. Initial travel time: " ++
                toString durationMinutes ++ " min",
              isRead := false }
          (some { route := updatedRoute, history := history, notification := some notification }, s3)
        | timeChange =>
          if shouldNotify s.settings timeChange then
            let (notification, s3) := s2.createNotification
              { routeId := routeId, timestamp := now,
                type := notificationTypeFor timeChange,
                message := notificationMessageFor route.name durationMinutes timeChange,
                isRead := false }
            (some { route := updatedRoute, history := history, notification := some notification }, s3)
          else
            (some { route := updatedRoute, history := history, notification := none }, s2)

/-- Iterated check cycles over one route: the cycle with travel time `t` is a
`checkRouteTime` call whose provider succeeded with `durationMinutes = t`;
clock ticks advance between cycles. -/
def runChecks (envApiKey : Option String) (routeId : Nat) (travelTimes : List Int)
    (now : Nat) (s : MemStorage) : MemStorage :=
  match travelTimes with
  | [] => s
  | t :: rest =>
    runChecks envApiKey routeId rest (now + 1)
      (checkRouteTime envApiKey (some { durationMinutes := t, durationText := "", distanceText := "" })
        now routeId s).2

/-- Settings portion of the `/api/init` handler (routes.ts lines 21-27): when
the environment key is present and differs from the stored key (or no key is
stored), write it back to the settings store. -/
def apiInitSettings (envApiKey : Option String) (s : MemStorage) : MemStorage :=
  match envApiKey with
  | none => s
  | some e =>
    if s.settings.apiKey.isNone || s.settings.apiKey != some e then
      (s.updateSettings (fun st => { st with apiKey := some e })).2
    else s

/-- Interval validation performed by `insertRouteSchema` (shared/schema.ts
lines 36-39): the drizzle-zod insert schema for the `routes` table checks only
that `interval` is a number; the table definition carries no range constraint
and the schema adds none, so every integer interval passes. -/
def insertRouteSchemaIntervalOk (_interval : Int) : Bool := true

/-- Interval validation of the client-side `routeFormSchema` (shared/schema.ts
line 102): `z.number().min(1).max(60)`. -/
def routeFormSchemaIntervalOk (interval : Int) : Bool :=
  1 ≤ interval && interval ≤ 60

/-- Outcome of the `POST /api/routes` handler. -/
inductive CreateRouteResponse where
  | apiKeyMissing : CreateRouteResponse
  | validationError : CreateRouteResponse
  | created : Route → CreateRouteResponse
deriving DecidableEq, Repr

/-- Validation and creation steps of the `POST /api/routes` handler
(routes.ts lines 94-123): reject when no API key is stored, parse the body
with `insertRouteSchema` (a `ZodError` becomes a 400 validation error and
nothing is created), then create the route.  The subsequent scheduling and
initial check (lines 107-113) are modelled separately and do not affect
acceptance. -/
def createRouteHandler (body : InsertRoute) (now : Nat) (s : MemStorage) :
    CreateRouteResponse × MemStorage :=
  match s.settings.apiKey with
  | none => (.apiKeyMissing, s)
  | some _ =>
    if insertRouteSchemaIntervalOk body.interval then
      let (route, s1) := s.createRoute body now
      (.created route, s1)
    else
      (.validationError, s)

/-- One `node-schedule` job: the id handed out at creation and the route it
fires for. -/
structure ScheduledTimer where
  jobId : Nat
  routeId : Nat
deriving DecidableEq, Repr

/-- State of the scheduler (routes.ts line 10 plus the ambient set of live
`node-schedule` jobs): `scheduledJobs` is the module-level
`Map<number, schedule.Job>` as an association list, `timers` records every job
ever created, `cancelledJobs` the ids on which `.cancel()` was called, and
`nextJobId` a fresh-id counter. -/
structure SchedulerState where
  scheduledJobs : List (Nat × Nat)
  timers : List ScheduledTimer
  cancelledJobs : List Nat
  nextJobId : Nat
deriving DecidableEq, Repr

/-- Scheduler state before any scheduling call. -/
def SchedulerState.empty : SchedulerState :=
  { scheduledJobs := [], timers := [], cancelledJobs := [], nextJobId := 0 }

/-- JS `Map.set`: replace the value in place when the key exists, otherwise
append the new entry. -/
def mapSet (k v : Nat) : List (Nat × Nat) → List (Nat × Nat)
  | [] => [(k, v)]
  | kv :: rest => if kv.1 == k then (k, v) :: rest else kv :: mapSet k v rest

/-- Synchronous phase of one `scheduleRouteMonitoring` call (routes.ts lines
311-319): cancel any job the map currently holds for this route (the stale
map entry is not removed — the source only cancels), then call
`storage.getRoute(routeId).then(...)`.  The `.then` continuation does not run
inside the call: it is appended to the microtask queue and runs only after
the synchronous code of the caller has completed.  The queue is modelled as
the FIFO list of routeIds whose install continuation is pending. -/
def scheduleRouteMonitoringCall (routeId : Nat) (st : SchedulerState)
    (microtasks : List Nat) : SchedulerState × List Nat :=
  match st.scheduledJobs.lookup routeId with
  | some j => ({ st with cancelledJobs := j :: st.cancelledJobs }, microtasks ++ [routeId])
  | none => (st, microtasks ++ [routeId])

/-- The `.then` continuation of `scheduleRouteMonitoring` (routes.ts lines
319-330): look the route up; when it exists and is active, create a fresh
node-schedule job and store its handle in the map (a no-op otherwise).
`getRouteF` is `storage.getRoute`. -/
def scheduleRouteMonitoringInstall (getRouteF : Nat → Option Route) (routeId : Nat)
    (st : SchedulerState) : SchedulerState :=
  match getRouteF routeId with
  | none => st
  | some route =>
    if route.isActive then
      { st with
        timers := st.timers ++ [{ jobId := st.nextJobId, routeId := routeId }]
        scheduledJobs := mapSet routeId st.nextJobId st.scheduledJobs
        nextJobId := st.nextJobId + 1 }
    else st

/-- Drain of the microtask queue in FIFO order: once the synchronous code
that issued the `scheduleRouteMonitoring` calls returns, the queued install
continuations run one after another. -/
def drainInstalls (getRouteF : Nat → Option Route) (st : SchedulerState) :
    List Nat → SchedulerState
  | [] => st
  | routeId :: rest =>
    drainInstalls getRouteF (scheduleRouteMonitoringInstall getRouteF routeId st) rest

/-- Timers created for the route and not yet cancelled. -/
def liveTimersFor (routeId : Nat) (st : SchedulerState) : List ScheduledTimer :=
  st.timers.filter (fun t => t.routeId == routeId && !(st.cancelledJobs.contains t.jobId))

/-- The three persistence writes a check cycle can issue. -/
inductive PersistWrite where
  | historyInsert : PersistWrite
  | routeUpdate : PersistWrite
  | notificationInsert : PersistWrite
deriving DecidableEq, Repr

/-- Sequence of store writes issued by one `checkRouteTime` invocation
(routes.ts lines 337-458) as a function of which steps succeed.
`fetchSucceeded` bundles the three pre-write guards (route found, key
resolved, provider success); `historyWriteOk` and `routeUpdateOk` are the
outcomes of the awaited `createRouteHistory` and `updateRoute` promises — a
rejected promise throws into the catch at line 454, so nothing further is
issued; `emitNotification` is whether the notification branch persists one. -/
def checkRouteWriteSequence (fetchSucceeded historyWriteOk routeUpdateOk
    emitNotification : Bool) : List PersistWrite :=
  if fetchSucceeded then
    .historyInsert ::
      (if historyWriteOk then
        .routeUpdate ::
          (if routeUpdateOk && emitNotification then [.notificationInsert] else [])
      else [])
  else []

/-- Running value of the route minTime field produced by folding
`jsMinFold` over the successive travel times, starting from the unset field of
a fresh route. -/
def minAccum : List Int → JsInt
  | [] => .undef
  | t :: rest => .num (rest.foldl (fun m d => jsMinFold (.num m) d) t)

/-- Running value of the route maxTime field, the `jsMaxFold` analogue of
`minAccum`. -/
def maxAccum : List Int → JsInt
  | [] => .undef
  | t :: rest => .num (rest.foldl (fun m d => jsMaxFold (.num m) d) t)

/-- Running value of the route avgTime field: the code recomputes
`Math.round` of the full-history mean on every cycle. -/
def avgAccum : List Int → JsInt
  | [] => .undef
  | p => .num (mathRound p.sum p.length)

/-- Round half away from zero, the rounding named by the specification for
the average: halves move away from zero, so 2.5 rounds to 3 and -2.5 to -3. -/
def roundHalfAwayFromZero (q : ℚ) : ℤ :=
  if 0 ≤ q then Rat.floor (q + 1 / 2) else Rat.ceil (q - 1 / 2)

/-- Invariant tying a storage state to the travel times `p` already recorded
for one route: the settings are fixed, the history entries owned by the route
carry exactly the travel times `p` in insertion order, and the route record
holds the folded minTime, maxTime and avgTime values. -/
def RunInv (σ : SettingsRec) (routeId : Nat) (p : List Int) (s : MemStorage) : Prop :=
  s.settings = σ ∧
  (s.routeHistories.filter (fun h => h.routeId == routeId)).map (fun h => h.travelTime) = p ∧
  (s.getRoute routeId).map (fun r => (r.minTime, r.maxTime, r.avgTime)) =
    some (minAccum p, maxAccum p, avgAccum p)

instance (σ : SettingsRec) (routeId : Nat) (p : List Int) (s : MemStorage) :
    Decidable (RunInv σ routeId p s) := by
  unfold RunInv; infer_instance

theorem insertByTimestamp_perm (h : RouteHistoryRec) (l : List RouteHistoryRec) :
    (insertByTimestamp h l).Perm (h :: l) := by
  induction l with
  | nil => exact List.Perm.refl _
  | cons x xs ih =>
    unfold insertByTimestamp
    split
    · exact List.Perm.refl _
    · exact (ih.cons x).trans (List.Perm.swap h x xs)

theorem sortByTimestamp_perm (l : List RouteHistoryRec) : (sortByTimestamp l).Perm l := by
  induction l with
  | nil => exact List.Perm.refl _
  | cons x xs ih => exact (insertByTimestamp_perm x (sortByTimestamp xs)).trans (ih.cons x)

theorem getRouteHistories_travelTime_sum (s : MemStorage) (routeId : Nat) :
    ((s.getRouteHistories routeId).map (fun h => h.travelTime)).foldl (· + ·) 0 =
      ((s.routeHistories.filter (fun h => h.routeId == routeId)).map
        (fun h => h.travelTime)).sum := by
  rw [← List.sum_eq_foldl]
  exact ((sortByTimestamp_perm _).map _).sum_eq

theorem getRouteHistories_length (s : MemStorage) (routeId : Nat) :
    (s.getRouteHistories routeId).length =
      (s.routeHistories.filter (fun h => h.routeId == routeId)).length :=
  (sortByTimestamp_perm _).length_eq

theorem minAccum_append (p : List Int) (d : Int) :
    minAccum (p ++ [d]) = .num (jsMinFold (minAccum p) d) := by
  cases p with
  | nil => rfl
  | cons t rest => simp [minAccum, List.foldl_append]

theorem maxAccum_append (p : List Int) (d : Int) :
    maxAccum (p ++ [d]) = .num (jsMaxFold (maxAccum p) d) := by
  cases p with
  | nil => rfl
  | cons t rest => simp [maxAccum, List.foldl_append]

theorem avgAccum_of_ne_nil (l : List Int) (h : l ≠ []) :
    avgAccum l = .num (mathRound l.sum l.length) := by
  cases l with
  | nil => exact absurd rfl h
  | cons t rest => rfl

theorem find?_congr {α : Type} (l : List α) (p q : α → Bool) (h : ∀ x, p x = q x) :
    l.find? p = l.find? q := by
  induction l with
  | nil => rfl
  | cons x xs ih => simp [List.find?_cons, h x, ih]

theorem mathRound_eq_roundHalfAwayFromZero (sum : Int) (len : Nat)
    (hlen : 0 < len) (hsum : 0 ≤ sum) :
    mathRound sum len = roundHalfAwayFromZero ((sum : ℚ) / (len : ℚ)) := by
  have hlq : ((len : ℚ)) ≠ 0 := by positivity
  have hq : (0 : ℚ) ≤ (sum : ℚ) / (len : ℚ) := by
    apply div_nonneg
    · exact_mod_cast hsum
    · positivity
  unfold roundHalfAwayFromZero
  rw [if_pos hq]
  have hrw : (sum : ℚ) / (len : ℚ) + 1 / 2 =
      ((2 * sum + (len : ℤ) : ℤ) : ℚ) / (((2 * len : ℕ) : ℕ) : ℚ) := by
    push_cast
    field_simp
    ring
  have hfl : ∀ q : ℚ, Rat.floor q = ⌊q⌋ := by
    intro q
    rw [Rat.floor_def', Rat.floor_def]
  rw [hrw, hfl, Rat.floor_intCast_div_natCast]
  unfold mathRound
  push_cast
  ring_nf

theorem foldl_jsMinFold_eq_min (rest : List Int) (t : Int) (ht : 1 ≤ t)
    (h : ∀ x ∈ rest, 1 ≤ x) :
    rest.foldl (fun m d => jsMinFold (.num m) d) t = rest.foldl min t := by
  induction rest generalizing t with
  | nil => rfl
  | cons d ds ih =>
    have hd : 1 ≤ d := h d (by simp)
    have hstep : jsMinFold (.num t) d = min t d := by
      have ht0 : (t != 0) = true := by simp; omega
      simp [jsMinFold, JsInt.truthy, ht0]
    simp only [List.foldl_cons, hstep]
    exact ih (min t d) (le_min ht hd) (fun x hx => h x (List.mem_cons_of_mem d hx))

theorem foldl_jsMaxFold_eq_max (rest : List Int) (t : Int) (ht : 1 ≤ t)
    (h : ∀ x ∈ rest, 1 ≤ x) :
    rest.foldl (fun m d => jsMaxFold (.num m) d) t = rest.foldl max t := by
  induction rest generalizing t with
  | nil => rfl
  | cons d ds ih =>
    have hstep : jsMaxFold (.num t) d = max t d := by
      have ht0 : (t != 0) = true := by simp; omega
      simp [jsMaxFold, JsInt.truthy, ht0]
    simp only [List.foldl_cons, hstep]
    exact ih (max t d) (le_trans ht (le_max_left t d))
      (fun x hx => h x (List.mem_cons_of_mem d hx))

theorem avgTime_from_filter (s1 : MemStorage) (routeId : Nat) (q : List Int) (hq : q ≠ [])
    (hf : (s1.routeHistories.filter (fun h => h.routeId == routeId)).map
        (fun h => h.travelTime) = q) :
    JsInt.num (mathRound
      (((s1.getRouteHistories routeId).map (fun h => h.travelTime)).foldl (· + ·) 0)
      (s1.getRouteHistories routeId).length) = avgAccum q := by
  rw [getRouteHistories_travelTime_sum, hf, getRouteHistories_length,
    avgAccum_of_ne_nil q hq]
  congr 2
  rw [← hf, List.length_map]

theorem checkRouteTime_step (env : Option String) (σ : SettingsRec) (routeId : Nat)
    (p : List Int) (d : Int) (dt ds : String) (now : Nat) (s : MemStorage)
    (hkey : (env.or σ.apiKey).isSome)
    (hinv : RunInv σ routeId p s) :
    RunInv σ routeId (p ++ [d])
      (checkRouteTime env (some { durationMinutes := d, durationText := dt, distanceText := ds })
        now routeId s).2 := by
  obtain ⟨hσ, hfilt, hroute⟩ := hinv
  rw [Option.map_eq_some'] at hroute
  obtain ⟨r, hr, hfields⟩ := hroute
  simp only [Prod.mk.injEq] at hfields
  obtain ⟨hmin, hmax, havg⟩ := hfields
  have hk : resolveApiKey env s = env.or σ.apiKey := by rw [resolveApiKey, hσ]
  obtain ⟨k, hk2⟩ := Option.isSome_iff_exists.mp hkey
  have hr' : s.routes.find? (fun x => x.id == routeId) = some r := hr
  have hrid := List.find?_some hr'
  unfold checkRouteTime
  rw [hr, hk, hk2]
  simp only [MemStorage.createRouteHistory, MemStorage.updateRoute, hr']
  simp only [MemStorage.createNotification]
  unfold RunInv
  cases hc : computeTimeChange r.currentTime d with
  | null =>
    refine ⟨hσ, ?_, ?_⟩
    · simp [List.filter_append, hfilt]
    · rw [MemStorage.getRoute]
      dsimp only
      rw [List.find?_map]
      rw [find?_congr _ _ (fun x => x.id == routeId)
        (by intro x; by_cases hx : (x.id == routeId) = true <;>
          simp [Function.comp, hx] <;> simpa using hrid)]
      rw [hr']
      simp only [Option.map_some', hrid, if_true]
      simp only [Option.some.injEq, Prod.mk.injEq]
      refine ⟨?_, ?_, ?_⟩
      · rw [minAccum_append, hmin]
      · rw [maxAccum_append, hmax]
      · exact avgTime_from_filter _ routeId (p ++ [d]) (by simp)
          (by simp [List.filter_append, hfilt])
  | nan =>
    by_cases hn : shouldNotify s.settings TimeChange.nan = true
    · simp only [if_pos hn]
      refine ⟨hσ, ?_, ?_⟩
      · simp [List.filter_append, hfilt]
      · rw [MemStorage.getRoute]
        dsimp only
        rw [List.find?_map]
        rw [find?_congr _ _ (fun x => x.id == routeId)
          (by intro x; by_cases hx : (x.id == routeId) = true <;>
            simp [Function.comp, hx] <;> simpa using hrid)]
        rw [hr']
        simp only [Option.map_some', hrid, if_true]
        simp only [Option.some.injEq, Prod.mk.injEq]
        refine ⟨?_, ?_, ?_⟩
        · rw [minAccum_append, hmin]
        · rw [maxAccum_append, hmax]
        · exact avgTime_from_filter _ routeId (p ++ [d]) (by simp)
            (by simp [List.filter_append, hfilt])
    · simp only [if_neg hn]
      refine ⟨hσ, ?_, ?_⟩
      · simp [List.filter_append, hfilt]
      · rw [MemStorage.getRoute]
        dsimp only
        rw [List.find?_map]
        rw [find?_congr _ _ (fun x => x.id == routeId)
          (by intro x; by_cases hx : (x.id == routeId) = true <;>
            simp [Function.comp, hx] <;> simpa using hrid)]
        rw [hr']
        simp only [Option.map_some', hrid, if_true]
        simp only [Option.some.injEq, Prod.mk.injEq]
        refine ⟨?_, ?_, ?_⟩
        · rw [minAccum_append, hmin]
        · rw [maxAccum_append, hmax]
        · exact avgTime_from_filter _ routeId (p ++ [d]) (by simp)
            (by simp [List.filter_append, hfilt])
  | num c =>
    by_cases hn : shouldNotify s.settings (TimeChange.num c) = true
    · simp only [if_pos hn]
      refine ⟨hσ, ?_, ?_⟩
      · simp [List.filter_append, hfilt]
      · rw [MemStorage.getRoute]
        dsimp only
        rw [List.find?_map]
        rw [find?_congr _ _ (fun x => x.id == routeId)
          (by intro x; by_cases hx : (x.id == routeId) = true <;>
            simp [Function.comp, hx] <;> simpa using hrid)]
        rw [hr']
        simp only [Option.map_some', hrid, if_true]
        simp only [Option.some.injEq, Prod.mk.injEq]
        refine ⟨?_, ?_, ?_⟩
        · rw [minAccum_append, hmin]
        · rw [maxAccum_append, hmax]
        · exact avgTime_from_filter _ routeId (p ++ [d]) (by simp)
            (by simp [List.filter_append, hfilt])
    · simp only [if_neg hn]
      refine ⟨hσ, ?_, ?_⟩
      · simp [List.filter_append, hfilt]
      · rw [MemStorage.getRoute]
        dsimp only
        rw [List.find?_map]
        rw [find?_congr _ _ (fun x => x.id == routeId)
          (by intro x; by_cases hx : (x.id == routeId) = true <;>
            simp [Function.comp, hx] <;> simpa using hrid)]
        rw [hr']
        simp only [Option.map_some', hrid, if_true]
        simp only [Option.some.injEq, Prod.mk.injEq]
        refine ⟨?_, ?_, ?_⟩
        · rw [minAccum_append, hmin]
        · rw [maxAccum_append, hmax]
        · exact avgTime_from_filter _ routeId (p ++ [d]) (by simp)
            (by simp [List.filter_append, hfilt])

theorem runChecks_inv (env : Option String) (σ : SettingsRec) (routeId : Nat)
    (ts p : List Int) (now : Nat) (s : MemStorage)
    (hkey : (env.or σ.apiKey).isSome)
    (hinv : RunInv σ routeId p s) :
    RunInv σ routeId (p ++ ts) (runChecks env routeId ts now s) := by
  induction ts generalizing p now s with
  | nil => simpa using hinv
  | cons t rest ih =>
    rw [runChecks]
    have h1 := checkRouteTime_step env σ routeId p t "" "" now s hkey hinv
    have h2 := ih (p ++ [t]) (now + 1) _ h1
    simpa using h2

/-- Creation payload sent by the standard monitoring form (route-form.tsx):
name, source, destination, interval, isActive, isSaved and nothing else, so
every nullable statistics column is left absent. -/
def monitorInsert : InsertRoute :=
  { name := "Home to Work", source := "A", destination := "B",
    interval := 5, isActive := true, isSaved := false }

/-- Storage with a configured API key and one freshly created route (id 1),
before any check has run. -/
def freshRouteStorage : MemStorage :=
  (MemStorage.createRoute (MemStorage.init (some "key")) monitorInsert 0).2

/-- The claim C1 aggregation property, proved for travel times that are all
at least one minute: after the checks with travel times `t :: rest`, the
route fields hold the minimum, the maximum, and the rounded mean of the
recorded travel times. -/
theorem aggregation_after_checks (env : Option String) (routeId : Nat) (s : MemStorage)
    (t : Int) (rest : List Int) (now : Nat)
    (hwf : MemStorage.WF s)
    (hkey : (env.or s.settings.apiKey).isSome)
    (hfresh : RunInv s.settings routeId [] s)
    (hpos : ∀ x ∈ t :: rest, 1 ≤ x) :
    ∃ r, (runChecks env routeId (t :: rest) now s).getRoute routeId = some r ∧
      r.minTime = .num (rest.foldl min t) ∧
      r.maxTime = .num (rest.foldl max t) ∧
      r.avgTime = .num (roundHalfAwayFromZero
        (((t :: rest).sum : ℚ) / ((t :: rest).length : ℚ))) := by
  have h := runChecks_inv env s.settings routeId (t :: rest) [] now s hkey hfresh
  simp only [List.nil_append] at h
  obtain ⟨hσ, hfilt, hroute⟩ := h
  rw [Option.map_eq_some'] at hroute
  obtain ⟨r, hr, hfields⟩ := hroute
  simp only [Prod.mk.injEq] at hfields
  obtain ⟨hmin, hmax, havg⟩ := hfields
  have ht : (1 : Int) ≤ t := hpos t (by simp)
  have hrest : ∀ x ∈ rest, (1 : Int) ≤ x := fun x hx => hpos x (List.mem_cons_of_mem t hx)
  refine ⟨r, hr, ?_, ?_, ?_⟩
  · rw [hmin]
    show JsInt.num (rest.foldl (fun m d => jsMinFold (.num m) d) t) = _
    rw [foldl_jsMinFold_eq_min rest t ht hrest]
  · rw [hmax]
    show JsInt.num (rest.foldl (fun m d => jsMaxFold (.num m) d) t) = _
    rw [foldl_jsMaxFold_eq_max rest t ht hrest]
  · rw [havg]
    show JsInt.num (mathRound (t :: rest).sum (t :: rest).length) = _
    rw [mathRound_eq_roundHalfAwayFromZero (t :: rest).sum (t :: rest).length
      (by simp) (List.sum_nonneg (fun x hx => le_trans (by norm_num) (hpos x hx)))]



/-- Counterexample to the minTime clause of claim C1 as stated for arbitrary
travel times: a measured travel time of 0 minutes (a sub-30-second trip) is
falsy, so the next check resets the stored minimum instead of keeping it.
After checks [0, 5] the stored minTime is 5, not min 0 5 = 0. -/
theorem aggregation_min_counterexample :
    ((runChecks none 1 [0, 5] 1 freshRouteStorage).getRoute 1).map (fun r => r.minTime)
      = some (.num 5) ∧ JsInt.num 5 ≠ JsInt.num (min 0 5) := by decide

/-- Witness instantiating `aggregation_after_checks` on the specification
scenario [20, 25, 22]: minTime 20, maxTime 25, avgTime 22. -/
theorem aggregation_after_checks_witness :
    ∃ r, (runChecks none 1 [20, 25, 22] 1 freshRouteStorage).getRoute 1 = some r ∧
      r.minTime = .num ([25, 22].foldl min 20) ∧
      r.maxTime = .num ([25, 22].foldl max 20) ∧
      r.avgTime = .num (roundHalfAwayFromZero
        ((([20, 25, 22] : List Int).sum : ℚ) / (([20, 25, 22] : List Int).length : ℚ))) :=
  aggregation_after_checks none 1 freshRouteStorage 20 [25, 22] 1 (by decide) (by decide)
    (by decide) (by decide)

theorem shouldNotify_num_iff (σ : SettingsRec) (c : Int)
    (hnt : σ.notificationType = "all" ∨ σ.notificationType = "significant" ∨
      σ.notificationType = "increase") :
    shouldNotify σ (.num c) = true ↔
      (σ.enableNotifications = true ∧
        (σ.notificationType = "all" ∨ (σ.notificationType = "significant" ∧ 5 ≤ c.natAbs) ∨
          (σ.notificationType = "increase" ∧ 0 < c))) := by
  rcases hnt with h | h | h <;> simp [shouldNotify, h]

/-- Claim C3: for a successful check whose computed change is a number (the
route had a prior measurement), a notification is persisted if and only if
enableNotifications holds and the gate for the notification type passes —
"all" always, "significant" exactly when the absolute change is at least 5,
and "increase" exactly when the change is positive. -/
theorem checkRoute_notification_gate (env : Option String) (now routeId : Nat)
    (s : MemStorage) (r : Route) (pPrev dMin : Int) (dt ds : String)
    (hwf : MemStorage.WF s)
    (hr : s.getRoute routeId = some r)
    (hp : r.currentTime = .num pPrev)
    (hkey : (resolveApiKey env s).isSome)
    (hnt : s.settings.notificationType = "all" ∨ s.settings.notificationType = "significant" ∨
      s.settings.notificationType = "increase") :
    ∃ cr : CheckResult,
      (checkRouteTime env (some { durationMinutes := dMin, durationText := dt, distanceText := ds })
          now routeId s).1 = some cr ∧
      (cr.notification.isSome = true ↔
        (s.settings.enableNotifications = true ∧
          (s.settings.notificationType = "all" ∨
            (s.settings.notificationType = "significant" ∧ 5 ≤ (dMin - pPrev).natAbs) ∨
            (s.settings.notificationType = "increase" ∧ 0 < dMin - pPrev)))) ∧
      (checkRouteTime env (some { durationMinutes := dMin, durationText := dt, distanceText := ds })
          now routeId s).2.notifications = s.notifications ++ cr.notification.toList := by
  obtain ⟨k, hk2⟩ := Option.isSome_iff_exists.mp hkey
  have hr' : s.routes.find? (fun x => x.id == routeId) = some r := hr
  unfold checkRouteTime
  rw [hr, hk2]
  simp only [MemStorage.createRouteHistory, MemStorage.updateRoute,
    MemStorage.createNotification, hr', hp, computeTimeChange]
  by_cases hn : shouldNotify s.settings (TimeChange.num (dMin - pPrev)) = true
  · simp only [if_pos hn]
    refine ⟨_, rfl, ?_, ?_⟩
    · exact iff_of_true (by simp) ((shouldNotify_num_iff s.settings _ hnt).mp hn)
    · simp
  · simp only [if_neg hn]
    refine ⟨_, rfl, ?_, ?_⟩
    · exact iff_of_false (by simp) (fun hgate => hn ((shouldNotify_num_iff s.settings _ hnt).mpr hgate))
    · simp

/-- Storage with notification type "significant", a configured key, and one
route whose stored currentTime is 20 minutes. -/
def significantCreated : Route × MemStorage :=
  MemStorage.createRoute
    ((MemStorage.init (some "key")).updateSettings
      (fun st => { st with notificationType := "significant" })).2
    { monitorInsert with currentTime := .num 20 } 0

/-- Witness instantiating `checkRoute_notification_gate`: notification type
"significant", previous time 20, new time 25 (change +5). -/
theorem checkRoute_notification_gate_witness :
    ∃ cr : CheckResult,
      (checkRouteTime none (some { durationMinutes := 25, durationText := "", distanceText := "" })
          1 1 significantCreated.2).1 = some cr ∧
      (cr.notification.isSome = true ↔
        (significantCreated.2.settings.enableNotifications = true ∧
          (significantCreated.2.settings.notificationType = "all" ∨
            (significantCreated.2.settings.notificationType = "significant" ∧
              5 ≤ ((25 : Int) - 20).natAbs) ∨
            (significantCreated.2.settings.notificationType = "increase" ∧
              0 < (25 : Int) - 20)))) ∧
      (checkRouteTime none (some { durationMinutes := 25, durationText := "", distanceText := "" })
          1 1 significantCreated.2).2.notifications =
        significantCreated.2.notifications ++ cr.notification.toList :=
  checkRoute_notification_gate none 1 1 significantCreated.2 significantCreated.1 20 25 "" ""
    (by decide) (by decide) (by decide) (by decide) (by decide)

/-- Storage whose settings have notifications disabled, with a configured key
and one route freshly created from the standard form payload. -/
def notifsOffStorage : MemStorage :=
  (MemStorage.createRoute
    ((MemStorage.init (some "key")).updateSettings
      (fun st => { st with enableNotifications := false })).2
    monitorInsert 0).2

/-- Evaluation of the first check on a route created from the standard form
payload, refuting claim C2 on the code: the stored currentTime of a fresh
route is absent (undefined), so `previousTime !== null` passes, the change
becomes NaN instead of null, and the check takes the gated non-first-check
branch.  With notifications disabled no notification at all is persisted, and
with the default settings an "unchanged" notification is persisted rather
than a "new" one. -/
theorem first_check_notification_bug :
    (checkRouteTime none (some { durationMinutes := 20, durationText := "20 mins", distanceText := "5 km" })
        1 1 notifsOffStorage).2.notifications = [] ∧
    ((checkRouteTime none (some { durationMinutes := 20, durationText := "20 mins", distanceText := "5 km" })
        1 1 notifsOffStorage).1.map (fun cr => cr.history.change) = some .nan) ∧
    ((checkRouteTime none (some { durationMinutes := 20, durationText := "20 mins", distanceText := "5 km" })
        1 1 freshRouteStorage).1.bind
      (fun cr => cr.notification.map (fun n => n.type)) = some "unchanged") := by decide

/-- Claim C4: the three failure exits of a check (missing route, unresolvable
API key, provider failure) return null and leave the storage state completely
unchanged — no history entry, no route mutation, no notification. -/
theorem checkRoute_failure_no_side_effects (env : Option String)
    (prov : Option TravelTimeResult) (now routeId : Nat) (s : MemStorage)
    (h : s.getRoute routeId = none ∨ resolveApiKey env s = none ∨ prov = none) :
    checkRouteTime env prov now routeId s = (none, s) := by
  unfold checkRouteTime
  rcases h with h | h | h
  · rw [h]
  · cases hr2 : s.getRoute routeId with
    | none => rfl
    | some r => rw [h]
  · cases hr2 : s.getRoute routeId with
    | none => rfl
    | some r =>
      cases hk2 : resolveApiKey env s with
      | none => rfl
      | some k => rw [h]

/-- Witness instantiating `checkRoute_failure_no_side_effects` on an empty
storage: the route does not exist, the call fails and the state is returned
untouched. -/
theorem checkRoute_failure_no_side_effects_witness :
    checkRouteTime none none 0 1 (MemStorage.init none) = (none, MemStorage.init none) :=
  checkRoute_failure_no_side_effects none none 0 1 (MemStorage.init none)
    (Or.inl (by decide))

theorem checkRouteTime_preserves_settings (env : Option String)
    (prov : Option TravelTimeResult) (now routeId : Nat) (s : MemStorage) :
    (checkRouteTime env prov now routeId s).2.settings = s.settings := by
  unfold checkRouteTime MemStorage.createRouteHistory MemStorage.updateRoute
    MemStorage.createNotification
  dsimp only
  repeat' split
  all_goals rfl

/-- Storage with a stored API key "stored-key" and one fresh route. -/
def storedKeyStorage : MemStorage :=
  (MemStorage.createRoute (MemStorage.init (some "stored-key")) monitorInsert 0).2

/-- Counterexample to claim C5 as stated: a check performed with the
environment key present resolves the active key to it but never writes it to
the settings store — afterwards getSettings still returns the stored key. -/
theorem env_key_not_persisted_by_check :
    ((checkRouteTime (some "env-key")
        (some { durationMinutes := 20, durationText := "", distanceText := "" })
        1 1 storedKeyStorage).1.isSome = true) ∧
    ((checkRouteTime (some "env-key")
        (some { durationMinutes := 20, durationText := "", distanceText := "" })
        1 1 storedKeyStorage).2.settings.apiKey = some "stored-key") ∧
    some "stored-key" ≠ some "env-key" := by decide

/-- Amended claim C5: every check resolves the active key to the environment
key when present, overriding any stored key, and leaves the settings store
untouched; the write-back of the environment key into the settings happens in
the init operation, after which getSettings returns the environment key. -/
theorem env_key_override (env : Option String) (e : String)
    (prov : Option TravelTimeResult) (now routeId : Nat) (s : MemStorage)
    (henv : env = some e) :
    resolveApiKey env s = some e ∧
    (checkRouteTime env prov now routeId s).2.settings = s.settings ∧
    (apiInitSettings env s).settings.apiKey = some e := by
  subst henv
  refine ⟨rfl, checkRouteTime_preserves_settings _ _ _ _ _, ?_⟩
  simp only [apiInitSettings, MemStorage.updateSettings]
  split
  · rfl
  · next hcond =>
    simp at hcond
    exact hcond.2

theorem env_key_override_witness :
    resolveApiKey (some "env-key") storedKeyStorage = some "env-key" ∧
    (checkRouteTime (some "env-key")
        (some { durationMinutes := 20, durationText := "", distanceText := "" })
        1 1 storedKeyStorage).2.settings = storedKeyStorage.settings ∧
    (apiInitSettings (some "env-key") storedKeyStorage).settings.apiKey = some "env-key" :=
  env_key_override (some "env-key") "env-key"
    (some { durationMinutes := 20, durationText := "", distanceText := "" })
    1 1 storedKeyStorage rfl

/-- An existing active route, as `storage.getRoute` returns it to the install
continuation. -/
def demoActiveRoute : Route :=
  { id := 1, name := "Home to Work", source := "A", destination := "B",
    interval := 5, isActive := true, isSaved := false, lastChecked := none,
    currentTime := .undef, minTime := .undef, maxTime := .undef, avgTime := .undef,
    change := .null }

/-- Route lookup the scheduler install continuation performs: route 1 exists
and is active. -/
def demoGetRoute : Nat → Option Route :=
  fun i => if i == 1 then some demoActiveRoute else none

/-- Scheduler state and microtask queue after two back-to-back
`scheduleRouteMonitoring(1)` calls, before the queue drains — the situation
the PATCH handler creates when both isActive and interval change (routes.ts
lines 143 and 161, with no await between the two calls). -/
def scheduleTwiceWorld : SchedulerState × List Nat :=
  let first := scheduleRouteMonitoringCall 1 SchedulerState.empty []
  scheduleRouteMonitoringCall 1 first.1 first.2

/-- Claim C6 evaluated at the failing input: two back-to-back
`scheduleRouteMonitoring` calls for the same existing active route run both
synchronous cancel phases before either deferred install continuation, so
neither call finds the job of the other in the map and nothing is cancelled.
When the microtask queue drains, both continuations install a job; the second
map write overwrites the first entry, the first job is never cancelled, and
two live timers remain for the route — not exactly one as the claim states. -/
theorem schedule_twice_two_live_timers :
    liveTimersFor 1 (drainInstalls demoGetRoute scheduleTwiceWorld.1 scheduleTwiceWorld.2)
      = [{ jobId := 0, routeId := 1 }, { jobId := 1, routeId := 1 }] ∧
    (liveTimersFor 1
      (drainInstalls demoGetRoute scheduleTwiceWorld.1 scheduleTwiceWorld.2)).length ≠ 1 := by
  decide

/-- Claim C7: within one check invocation the persistence writes are issued
in the order history insert, route update, notification insert — the issued
sequence is a prefix of that order — and a failed step stops the cycle: after
a failed history write at most the history attempt itself was issued, and
after a failed route update no notification insert is ever issued. -/
theorem checkRoute_write_order :
    ∀ fetchSucceeded historyWriteOk routeUpdateOk emitNotification : Bool,
      (checkRouteWriteSequence fetchSucceeded historyWriteOk routeUpdateOk
          emitNotification <+:
        [PersistWrite.historyInsert, PersistWrite.routeUpdate,
          PersistWrite.notificationInsert]) ∧
      (checkRouteWriteSequence fetchSucceeded false routeUpdateOk
          emitNotification).length ≤ 1 ∧
      PersistWrite.notificationInsert ∉
        checkRouteWriteSequence fetchSucceeded historyWriteOk false emitNotification := by
  decide

/-- Counterexample to claim C8 as stated: a creation request with interval 0
passes the server-side insertRouteSchema validation and creates the route —
it is not rejected with a validation error. -/
theorem create_route_interval_counterexample :
    ((createRouteHandler { monitorInsert with interval := 0 } 0
        (MemStorage.init (some "key"))).1 ≠ CreateRouteResponse.validationError) ∧
    ((createRouteHandler { monitorInsert with interval := 0 } 0
        (MemStorage.init (some "key"))).2.routes.map (fun r => r.interval) = [0]) ∧
    ¬((1 : Int) ≤ 0) := by decide

/-- Amended claim C8: the 1 to 60 interval bound is enforced only by the
client-side routeFormSchema; the server create handler validates with
insertRouteSchema, which bounds nothing, so whenever an API key is stored it
accepts any integer interval and creates the route with it. -/
theorem create_route_interval_validation (i : Int) (body : InsertRoute) (now : Nat)
    (s : MemStorage) (hkey : s.settings.apiKey.isSome) :
    (routeFormSchemaIntervalOk i = true ↔ 1 ≤ i ∧ i ≤ 60) ∧
    ∃ route, (createRouteHandler { body with interval := i } now s).1 =
      CreateRouteResponse.created route ∧ route.interval = i := by
  constructor
  · simp [routeFormSchemaIntervalOk]
  · obtain ⟨k, hk⟩ := Option.isSome_iff_exists.mp hkey
    unfold createRouteHandler
    rw [hk]
    dsimp only
    exact ⟨_, rfl, rfl⟩

/-- Witness instantiating `create_route_interval_validation` at interval 0. -/
theorem create_route_interval_validation_witness :
    (routeFormSchemaIntervalOk 0 = true ↔ 1 ≤ (0 : Int) ∧ (0 : Int) ≤ 60) ∧
    ∃ route, (createRouteHandler { monitorInsert with interval := 0 } 0
        (MemStorage.init (some "key"))).1 = CreateRouteResponse.created route ∧
      route.interval = 0 :=
  create_route_interval_validation 0 monitorInsert 0 (MemStorage.init (some "key"))
    (by decide)

/-- Claim C9: deleting a route removes every history entry owned by it, so a
subsequent getRouteHistories for that id returns an empty result. -/
theorem delete_route_cascades_histories (s : MemStorage) (routeId : Nat) :
    (s.deleteRoute routeId).2.getRouteHistories routeId = [] := by
  unfold MemStorage.deleteRoute MemStorage.deleteRouteHistories MemStorage.getRouteHistories
  dsimp only
  have hnil : (s.routeHistories.filter (fun h => h.routeId != routeId)).filter
      (fun h => h.routeId == routeId) = [] := by
    rw [List.filter_filter, List.filter_eq_nil_iff]
    intro h _
    simp only [Bool.and_eq_true, bne_iff_ne, ne_eq, beq_iff_eq]
    intro hcontra
    exact absurd hcontra.1 hcontra.2
  rw [hnil]
  rfl

/-- Claim C10: deleting a route leaves the notifications store untouched —
the notifications list and the result of getNotifications are unchanged. -/
theorem delete_route_preserves_notifications (s : MemStorage) (routeId : Nat) :
    (s.deleteRoute routeId).2.notifications = s.notifications ∧
    (s.deleteRoute routeId).2.getNotifications = s.getNotifications := by
  constructor <;> rfl

end GMapsMonitor
